import Mathlib

/-!
Verification of the subway-rs sandwich-bot pipeline driver (src/bot/src/hugo.rs).

The driver consumes pending transactions and, per candidate, runs a staged
pipeline: receipt check, destination filter, calldata decode, deadline gate,
pool resolution, reserve fetch and canonical reordering, optimal-input and
sandwich-context computation, block/base-fee/nonce reads, leg construction and
signing, bundle construction, simulation, bribe computation, profitability
gate, and submission.

Shallow embedding notes:
- Ethereum U256 values are modelled as Nat.  The ethers-rs U256 type (the
  parity uint crate) uses checked arithmetic: Sub panics on underflow, Mul
  panics on overflow past 2^256, Div panics on a zero divisor.  These checked
  operations are modelled as Option-valued functions (none = panic).
- External collaborators (chain queries, the subway_rs library helpers such as
  numeric::calculate_sandwich_optimal_in, abi decoding, signing, simulation,
  submission) are oracles: a CandidateEnv record carries the result each call
  would return for the current candidate, and the pipeline logic of hugo.rs is
  translated over those results.
- Rust Vec indexing (decoded.path[i], simulated_bundle.transactions[i]) panics
  when out of bounds; it is modelled with List.get? and a distinct panic
  outcome.
-/

/-- Ethereum addresses (H160) compare numerically; model them as Nat. -/
abbrev Address := Nat

/-- The size bound of the 256-bit unsigned integer type. -/
def U256SIZE : Nat := 2 ^ 256

/-- Checked U256 multiplication: the uint crate panics when the product
overflows 256 bits; none models the panic. -/
def u256Mul (a b : Nat) : Option Nat :=
  if a * b < U256SIZE then some (a * b) else none

/-- Checked U256 subtraction: panics (none) on underflow. -/
def u256Sub (a b : Nat) : Option Nat :=
  if b ≤ a then some (a - b) else none

/-- Checked U256 division: truncating; panics (none) on a zero divisor. -/
def u256Div (a b : Nat) : Option Nat :=
  if b = 0 then none else some (a / b)

/-- Decoded uniswap router calldata (abi::decode_uniswap_router_calldata):
amount_out_min, path and deadline of a SwapExactETHForTokens call. -/
structure DecodedSwap where
  deadline : Nat
  amount_out_min : Nat
  path : List Address
deriving DecidableEq, Repr

/-- One entry of the flashbots simulated bundle: its gas_used. -/
structure SimulatedTx where
  gas_used : Nat
deriving DecidableEq, Repr

/-- The latest block as read per candidate: its (optional) number. -/
structure BlockInfo where
  number : Option Nat
deriving DecidableEq, Repr

/-- An EIP-1559 transaction request as built by hugo.rs (lines 258-269 and
298-309): destination, sender, calldata bytes, chain id, fee fields, gas
limit and nonce. -/
structure Eip1559Request where
  toAddr : Address
  fromAddr : Address
  data : List Nat
  chain_id : Nat
  max_priority_fee_per_gas : Nat
  max_fee_per_gas : Nat
  gas : Nat
  nonce : Nat
deriving DecidableEq, Repr

/-- Static configuration loaded at startup: the uniswap v2 router address the
driver filters on, the sandwich execution contract, and the searcher wallet
address. -/
structure Config where
  uni_v2_addr : Address
  sandwich_contract_address : Address
  searcher_wallet_address : Address
deriving DecidableEq, Repr

/-- Oracle results of every external interaction performed while processing
one candidate transaction, in the order hugo.rs performs them.  A none / error
value is the corresponding failure of that call; nowSecsResult = none models
SystemTime::duration_since returning Err (clock before epoch), which the code
turns into a panic via .expect. -/
structure CandidateEnv where
  receiptResult : Except Unit (Option Unit)
  txTo : Option Address
  decodeResult : Option DecodedSwap
  nowSecsResult : Option Nat
  minRecvResult : Option Nat
  pairResult : Option Address
  reservesResult : Option (Nat × Nat)
  optimalInOf : Nat × Nat → Nat
  contextResult : Option Nat
  blockResult : Except Unit (Option BlockInfo)
  nextBaseFeeResult : Option Nat
  nonceResult : Option Nat
  walletReloadOk : Bool
  signFrontOk : Bool
  signBackOk : Bool
  bundleOk : Bool
  simResult : Option (List SimulatedTx)
  sendOk : Bool

/-- Everything known at the profitability gate: the two constructed legs, the
target block, the simulation gas readings and the bribe economics. -/
structure GateData where
  front : Eip1559Request
  back : Eip1559Request
  target : Nat
  revenue : Nat
  frontrun_gas : Nat
  backrun_gas : Nat
  next_base_fee : Nat
  bribe_amount : Nat
  max_priority_fee_per_gas : Nat
deriving DecidableEq, Repr

/-- The terminal outcome of processing one candidate.  Skip outcomes
correspond to the continue branches of the main loop; the panic/fatal
outcomes correspond to process-terminating events (panics of .expect,
checked U256 arithmetic, Vec indexing, and the ? operator at line 273). -/
inductive Outcome where
  | receiptFound
  | receiptErr
  | wrongTo
  | decodeFail
  | clockPanic
  | deadlineExpired
  | minRecvFail
  | pathIndexPanic
  | pairFail
  | reservesFail
  | noSandwich
  | contextFail
  | blockErr
  | blockNone
  | blockNumberNone
  | baseFeeFail
  | nonceFail
  | walletFatal
  | signFrontFail
  | signBackFail
  | bundleFail
  | simFail
  | gasIndexPanic
  | bribePanic
  | gateReject (mpfpg nbf : Nat)
  | sendFail (g : GateData)
  | submitted (g : GateData)
deriving DecidableEq, Repr

/-- hugo.rs line 359-360: the bribe computation in checked U256 arithmetic.
bribe_amount = revenue - frontrun_gas * next_base_fee and
max_priority_fee_per_gas = ((bribe_amount * 1337) / 10_000) / backrun_gas.
The divisor 10000 is a nonzero constant, so only the division by backrun_gas
can panic; each multiplication can overflow and the subtraction can
underflow (none models the panic). -/
def computeBribe (revenue frontrun_gas backrun_gas next_base_fee : Nat) :
    Option (Nat × Nat) :=
  (u256Mul frontrun_gas next_base_fee).bind fun gasCost =>
  (u256Sub revenue gasCost).bind fun bribe_amount =>
  (u256Mul bribe_amount 1337).bind fun scaled =>
  (u256Div scaled 10000).bind fun q =>
  (u256Div q backrun_gas).bind fun mpfpg =>
  some (bribe_amount, mpfpg)

/-- hugo.rs lines 170-173: swap the two fetched reserve values when the token
addresses are not in order (token_a > token_b); the token addresses
themselves are left as they are. -/
def reorderReserves (token_a token_b : Address) (r : Nat × Nat) : Nat × Nat :=
  if token_a > token_b then (r.2, r.1) else r

/-- hugo.rs lines 258-269: the front-run leg request.  Calldata is
Bytes::new() (empty; the solidityPack payload is an unimplemented TODO),
priority fee 0, max fee = next base fee, gas 250000, nonce = the snapshot. -/
def frontrun_transaction_request (sandwich_contract_address
    searcher_wallet_address next_base_fee nonce : Nat) : Eip1559Request :=
  { toAddr := sandwich_contract_address
    fromAddr := searcher_wallet_address
    data := []
    chain_id := 1
    max_priority_fee_per_gas := 0
    max_fee_per_gas := next_base_fee
    gas := 250000
    nonce := nonce }

/-- hugo.rs lines 298-309: the back-run leg request; identical fee shape,
nonce = snapshot + 1, calldata again empty (TODO). -/
def backrun_transaction_request (sandwich_contract_address
    searcher_wallet_address next_base_fee nonce : Nat) : Eip1559Request :=
  { toAddr := sandwich_contract_address
    fromAddr := searcher_wallet_address
    data := []
    chain_id := 1
    max_priority_fee_per_gas := 0
    max_fee_per_gas := next_base_fee
    gas := 250000
    nonce := nonce + 1 }

/-- hugo.rs lines 103-116: the deadline stage.  The epoch clock read panics
through .expect when the clock is before the epoch (nowSecsResult = none);
otherwise the candidate is skipped exactly when now > deadline. -/
def deadlineStage (env : CandidateEnv) (decoded : DecodedSwap) :
    Except Outcome Nat :=
  match env.nowSecsResult with
  | none => Except.error Outcome.clockPanic
  | some since_the_epoch =>
    if decoded.deadline < since_the_epoch then
      Except.error Outcome.deadlineExpired
    else Except.ok since_the_epoch

/-- hugo.rs lines 354-356: read gas_used from positions 0 and 2 of the
simulated bundle's transaction list.  Vec indexing panics when the list is
too short; no length check is performed. -/
def gasStage (txs : List SimulatedTx) : Except Outcome (Nat × Nat) :=
  match txs.get? 0 with
  | none => Except.error Outcome.gasIndexPanic
  | some t0 =>
    match txs.get? 2 with
    | none => Except.error Outcome.gasIndexPanic
    | some t2 => Except.ok (t0.gas_used, t2.gas_used)

/-- hugo.rs lines 358-360 wrapped as a pipeline stage: a checked-arithmetic
panic terminates the process (bribePanic). -/
def bribeStage (revenue frontrun_gas backrun_gas next_base_fee : Nat) :
    Except Outcome (Nat × Nat) :=
  match computeBribe revenue frontrun_gas backrun_gas next_base_fee with
  | none => Except.error Outcome.bribePanic
  | some bm => Except.ok bm

/-- The per-candidate pipeline of hugo.rs main (lines 76-360), from the
receipt lookup up to (but excluding) the profitability gate.  Stages appear
in source order; each failure arm is the corresponding continue / panic /
error-propagation branch. -/
def preGate (cfg : Config) (env : CandidateEnv) : Except Outcome GateData :=
  match env.receiptResult with
  | Except.error _ => Except.error Outcome.receiptErr
  | Except.ok (some _) => Except.error Outcome.receiptFound
  | Except.ok none =>
  if env.txTo ≠ some cfg.uni_v2_addr then Except.error Outcome.wrongTo else
  match env.decodeResult with
  | none => Except.error Outcome.decodeFail
  | some decoded =>
  match deadlineStage env decoded with
  | Except.error o => Except.error o
  | Except.ok _now =>
  match env.minRecvResult with
  | none => Except.error Outcome.minRecvFail
  | some _user_min_recv =>
  match decoded.path.get? 0 with
  | none => Except.error Outcome.pathIndexPanic
  | some token_a =>
  match decoded.path.get? 1 with
  | none => Except.error Outcome.pathIndexPanic
  | some token_b =>
  match env.pairResult with
  | none => Except.error Outcome.pairFail
  | some _pair_to_sandwich =>
  match env.reservesResult with
  | none => Except.error Outcome.reservesFail
  | some reserves =>
  if env.optimalInOf (reorderReserves token_a token_b reserves) ≤ 0 then
    Except.error Outcome.noSandwich else
  match env.contextResult with
  | none => Except.error Outcome.contextFail
  | some revenue =>
  match env.blockResult with
  | Except.error _ => Except.error Outcome.blockErr
  | Except.ok none => Except.error Outcome.blockNone
  | Except.ok (some block) =>
  match block.number with
  | none => Except.error Outcome.blockNumberNone
  | some bn =>
  match env.nextBaseFeeResult with
  | none => Except.error Outcome.baseFeeFail
  | some next_base_fee =>
  match env.nonceResult with
  | none => Except.error Outcome.nonceFail
  | some nonce =>
  if env.walletReloadOk = false then Except.error Outcome.walletFatal else
  if env.signFrontOk = false then Except.error Outcome.signFrontFail else
  if env.signBackOk = false then Except.error Outcome.signBackFail else
  if env.bundleOk = false then Except.error Outcome.bundleFail else
  match env.simResult with
  | none => Except.error Outcome.simFail
  | some txs =>
  match gasStage txs with
  | Except.error o => Except.error o
  | Except.ok gases =>
  match bribeStage revenue gases.1 gases.2 next_base_fee with
  | Except.error o => Except.error o
  | Except.ok bm =>
  Except.ok
    { front := frontrun_transaction_request cfg.sandwich_contract_address
        cfg.searcher_wallet_address next_base_fee nonce
      back := backrun_transaction_request cfg.sandwich_contract_address
        cfg.searcher_wallet_address next_base_fee nonce
      target := bn + 1
      revenue := revenue
      frontrun_gas := gases.1
      backrun_gas := gases.2
      next_base_fee := next_base_fee
      bribe_amount := bm.1
      max_priority_fee_per_gas := bm.2 }

/-- hugo.rs lines 366-389: the profitability gate and the submission.  If
max_priority_fee_per_gas < next_base_fee the candidate is rejected; otherwise
send_bundle is called, and its failure is itself only a skip. -/
def processCandidate (cfg : Config) (env : CandidateEnv) : Outcome :=
  match preGate cfg env with
  | Except.error o => o
  | Except.ok g =>
    if g.max_priority_fee_per_gas < g.next_base_fee then
      Outcome.gateReject g.max_priority_fee_per_gas g.next_base_fee
    else if env.sendOk then Outcome.submitted g else Outcome.sendFail g

/-- True exactly on the outcomes in which the submission interface
(send_bundle) was invoked. -/
def sendBundleCalled : Outcome → Bool
  | Outcome.sendFail _ => true
  | Outcome.submitted _ => true
  | _ => false

/-- True exactly on the outcomes that terminate the whole process rather than
skipping to the next candidate: the epoch-clock .expect panic, Vec index
panics on the decoded path and on the simulation result, the checked U256
arithmetic panics of the bribe computation, and the error propagation of the
searcher-wallet re-read at line 273. -/
def processTerminates : Outcome → Bool
  | Outcome.clockPanic => true
  | Outcome.pathIndexPanic => true
  | Outcome.walletFatal => true
  | Outcome.gasIndexPanic => true
  | Outcome.bribePanic => true
  | _ => false

/-- Environment sanity: the epoch clock has not gone backwards, the wallet
re-read succeeds, a decoded path has at least the two entries the code
indexes, a simulation result has at least the three entries the code indexes,
and the bribe arithmetic neither under/overflows 256 bits nor divides by
zero.  These are exactly the conditions under which no per-candidate step can
terminate the process. -/
def saneEnv (env : CandidateEnv) : Bool :=
  env.nowSecsResult.isSome &&
  env.walletReloadOk &&
  (match env.decodeResult with
   | some d => decide (2 ≤ d.path.length)
   | none => true) &&
  (match env.simResult with
   | some txs => decide (3 ≤ txs.length)
   | none => true) &&
  (match env.contextResult, env.nextBaseFeeResult, env.simResult with
   | some revenue, some nbf, some txs =>
     (match txs.get? 0, txs.get? 2 with
      | some t0, some t2 =>
        (computeBribe revenue t0.gas_used t2.gas_used nbf).isSome
      | _, _ => true)
   | _, _, _ => true)

/-- The profitability gate as a predicate of the bribe economics: the gate
passes when the checked bribe computation succeeds and the resulting
max_priority_fee_per_gas is at least the next base fee; a checked-arithmetic
panic means no submission ever happens. -/
def bribeGatePasses (revenue frontrun_gas backrun_gas next_base_fee : Nat) :
    Bool :=
  match computeBribe revenue frontrun_gas backrun_gas next_base_fee with
  | some bm => decide (next_base_fee ≤ bm.2)
  | none => false

/-- A reference configuration used by concrete witnesses. -/
def cfg0 : Config :=
  { uni_v2_addr := 2
    sandwich_contract_address := 3
    searcher_wallet_address := 4 }

/-- A reference environment in which every stage succeeds and the gate
passes: revenue 1000000, frontrun gas 10, backrun gas 10, next base fee 5,
nonce 7, block 50, now = deadline = 100. -/
def env0 : CandidateEnv :=
  { receiptResult := Except.ok none
    txTo := some 2
    decodeResult := some { deadline := 100, amount_out_min := 1, path := [10, 11] }
    nowSecsResult := some 100
    minRecvResult := some 5
    pairResult := some 77
    reservesResult := some (1000, 2000)
    optimalInOf := fun _ => 3
    contextResult := some 1000000
    blockResult := Except.ok (some { number := some 50 })
    nextBaseFeeResult := some 5
    nonceResult := some 7
    walletReloadOk := true
    signFrontOk := true
    signBackOk := true
    bundleOk := true
    simResult := some [{ gas_used := 10 }, { gas_used := 999 }, { gas_used := 10 }]
    sendOk := true }

/-- The gate data produced by env0: bribe 999950, priority fee 13369. -/
def g0 : GateData :=
  { front := frontrun_transaction_request 3 4 5 7
    back := backrun_transaction_request 3 4 5 7
    target := 51
    revenue := 1000000
    frontrun_gas := 10
    backrun_gas := 10
    next_base_fee := 5
    bribe_amount := 999950
    max_priority_fee_per_gas := 13369 }

/-! ## Helper lemmas -/

/-- A successful checked multiplication is in range and exact. -/
theorem u256Mul_some (a b c : Nat) (h : u256Mul a b = some c) :
    a * b < U256SIZE ∧ c = a * b := by
  unfold u256Mul at h
  split at h
  · injection h with h; exact ⟨by assumption, h.symm⟩
  · exact Option.noConfusion h

/-- A successful checked subtraction does not underflow and is exact. -/
theorem u256Sub_some (a b c : Nat) (h : u256Sub a b = some c) :
    b ≤ a ∧ c = a - b := by
  unfold u256Sub at h
  split at h
  · injection h with h; exact ⟨by assumption, h.symm⟩
  · exact Option.noConfusion h

/-- A successful checked division has a nonzero divisor and truncates. -/
theorem u256Div_some (a b c : Nat) (h : u256Div a b = some c) :
    b ≠ 0 ∧ c = a / b := by
  unfold u256Div at h
  split at h
  · exact Option.noConfusion h
  · injection h with h; exact ⟨by assumption, h.symm⟩

/-- Characterization of a successful bribe computation: the checked
preconditions all hold and the results are the plain truncating formulas. -/
theorem computeBribe_some_iff (revenue fg bg nbf b m : Nat)
    (h : computeBribe revenue fg bg nbf = some (b, m)) :
    fg * nbf < U256SIZE ∧ fg * nbf ≤ revenue ∧
    (revenue - fg * nbf) * 1337 < U256SIZE ∧ bg ≠ 0 ∧
    b = revenue - fg * nbf ∧ m = (revenue - fg * nbf) * 1337 / 10000 / bg := by
  unfold computeBribe at h
  cases h1 : u256Mul fg nbf with
  | none => simp only [h1, Option.none_bind] at h; exact Option.noConfusion h
  | some gasCost =>
  simp only [h1, Option.some_bind] at h
  cases h2 : u256Sub revenue gasCost with
  | none => simp only [h2, Option.none_bind] at h; exact Option.noConfusion h
  | some bribe =>
  simp only [h2, Option.some_bind] at h
  cases h3 : u256Mul bribe 1337 with
  | none => simp only [h3, Option.none_bind] at h; exact Option.noConfusion h
  | some scaled =>
  simp only [h3, Option.some_bind] at h
  cases h4 : u256Div scaled 10000 with
  | none => simp only [h4, Option.none_bind] at h; exact Option.noConfusion h
  | some q =>
  simp only [h4, Option.some_bind] at h
  cases h5 : u256Div q bg with
  | none => simp only [h5, Option.none_bind] at h; exact Option.noConfusion h
  | some mp =>
  simp only [h5, Option.some_bind] at h
  injection h with h
  injection h with hb hm
  subst hb hm
  obtain ⟨hm1, he1⟩ := u256Mul_some _ _ _ h1
  obtain ⟨hs1, he2⟩ := u256Sub_some _ _ _ h2
  obtain ⟨hm2, he3⟩ := u256Mul_some _ _ _ h3
  obtain ⟨_, he4⟩ := u256Div_some _ _ _ h4
  obtain ⟨hd2, he5⟩ := u256Div_some _ _ _ h5
  subst he1 he2 he3 he4 he5
  exact ⟨hm1, hs1, hm2, hd2, rfl, rfl⟩

/-- A successful checked bribe computation from the formula inputs. -/
theorem computeBribe_some_of (revenue fg bg nbf : Nat)
    (h1 : fg * nbf < U256SIZE) (h2 : fg * nbf ≤ revenue)
    (h3 : (revenue - fg * nbf) * 1337 < U256SIZE) (h4 : bg ≠ 0) :
    computeBribe revenue fg bg nbf =
      some (revenue - fg * nbf, (revenue - fg * nbf) * 1337 / 10000 / bg) := by
  simp [computeBribe, u256Mul, u256Sub, u256Div, h1, h2, h3, h4]

/-- The deadline stage only fails with clockPanic or deadlineExpired. -/
theorem deadlineStage_error_cases (env : CandidateEnv) (d : DecodedSwap)
    (o : Outcome) (h : deadlineStage env d = Except.error o) :
    o = Outcome.clockPanic ∨ o = Outcome.deadlineExpired := by
  unfold deadlineStage at h
  repeat' split at h
  all_goals first
    | exact Except.noConfusion h
    | (injection h with h; exact Or.inl h.symm)
    | (injection h with h; exact Or.inr h.symm)

/-- With a sane clock reading the deadline stage only fails by expiry. -/
theorem deadlineStage_sane (env : CandidateEnv) (d : DecodedSwap) (o : Outcome)
    (hs : env.nowSecsResult.isSome = true)
    (h : deadlineStage env d = Except.error o) : o = Outcome.deadlineExpired := by
  unfold deadlineStage at h
  repeat' split at h
  all_goals first
    | exact Except.noConfusion h
    | (injection h with h; exact h.symm)
    | simp_all

/-- The gas-extraction stage only fails with gasIndexPanic. -/
theorem gasStage_error_cases (txs : List SimulatedTx) (o : Outcome)
    (h : gasStage txs = Except.error o) : o = Outcome.gasIndexPanic := by
  unfold gasStage at h
  repeat' split at h
  all_goals first
    | (injection h with h; exact h.symm)
    | exact Except.noConfusion h

/-- The gas-extraction stage cannot fail on a simulation result with at least
three entries. -/
theorem gasStage_sane (txs : List SimulatedTx) (o : Outcome)
    (h : gasStage txs = Except.error o) (hlen : 3 ≤ txs.length) : False := by
  unfold gasStage at h
  repeat' split at h
  all_goals first
    | exact Except.noConfusion h
    | (have hl0 := List.get?_eq_none.mp (show txs.get? 0 = none by assumption); omega)
    | (have hl2 := List.get?_eq_none.mp (show txs.get? 2 = none by assumption); omega)

/-- A successful gas extraction comes from entries 0 and 2 of the list. -/
theorem gasStage_ok_shape (txs : List SimulatedTx) (p : Nat × Nat)
    (h : gasStage txs = Except.ok p) :
    ∃ t0 t2, txs.get? 0 = some t0 ∧ txs.get? 2 = some t2 ∧
      p = (t0.gas_used, t2.gas_used) := by
  unfold gasStage at h
  repeat' split at h
  all_goals first
    | exact Except.noConfusion h
    | (injection h with h; exact ⟨_, _, by assumption, by assumption, h.symm⟩)

/-- A failing bribe stage is the bribePanic outcome and a failing checked
computation. -/
theorem bribeStage_error_none (revenue fg bg nbf : Nat) (o : Outcome)
    (h : bribeStage revenue fg bg nbf = Except.error o) :
    o = Outcome.bribePanic ∧ computeBribe revenue fg bg nbf = none := by
  unfold bribeStage at h
  repeat' split at h
  all_goals first
    | exact Except.noConfusion h
    | (injection h with h; exact ⟨h.symm, by assumption⟩)

/-- No error produced by the pre-gate pipeline is a submission outcome:
send_bundle is never invoked on any failure path before the gate. -/
theorem preGate_error_not_send (cfg : Config) (env : CandidateEnv) (o : Outcome)
    (h : preGate cfg env = Except.error o) : sendBundleCalled o = false := by
  unfold preGate at h
  repeat' split at h
  all_goals first
    | exact Except.noConfusion h
    | (injection h with h; subst h; rfl)
    | (injection h with h; subst h;
       rcases deadlineStage_error_cases _ _ _ (by assumption) with h1 | h1 <;>
         (subst h1; rfl))
    | (injection h with h; subst h;
       obtain h1 := gasStage_error_cases _ _ (by assumption); subst h1; rfl)
    | (injection h with h; subst h;
       obtain ⟨h1, _⟩ := bribeStage_error_none _ _ _ _ _ (by assumption);
       subst h1; rfl)

/-- The shape of a successful pre-gate run: leg construction uses the single
nonce read and the single base-fee read of this candidate. -/
theorem preGate_ok_shape (cfg : Config) (env : CandidateEnv) (g : GateData)
    (h : preGate cfg env = Except.ok g) :
    ∃ n nbf, env.nonceResult = some n ∧ env.nextBaseFeeResult = some nbf ∧
      g.front = frontrun_transaction_request cfg.sandwich_contract_address
        cfg.searcher_wallet_address nbf n ∧
      g.back = backrun_transaction_request cfg.sandwich_contract_address
        cfg.searcher_wallet_address nbf n := by
  unfold preGate at h
  repeat' split at h
  all_goals (try exact Except.noConfusion h)
  injection h with h
  subst h
  exact ⟨_, _, by assumption, by assumption, rfl, rfl⟩

/-! ## Claim theorems -/

/-- Claim C1: for every candidate whose bribe computation completes, the
computed values satisfy exactly, in truncating unsigned 256-bit arithmetic,
bribeAmount = expectedRevenue - frontrunGasUsed * nextBaseFee and
maxPriorityFeePerGas = (bribeAmount * 1337) / 10000 / backrunGasUsed. -/
theorem bribe_formula_exact (revenue fg bg nbf b m : Nat)
    (h : computeBribe revenue fg bg nbf = some (b, m)) :
    b = revenue - fg * nbf ∧ m = b * 1337 / 10000 / bg := by
  obtain ⟨_, _, _, _, hb, hm⟩ := computeBribe_some_iff revenue fg bg nbf b m h
  subst hb
  exact ⟨rfl, hm⟩

/-- Witness for C1: a concrete run of the bribe computation. -/
theorem bribe_formula_exact_witness :
    computeBribe 1000000 10 10 5 = some (999950, 13369) ∧
    999950 = 1000000 - 10 * 5 ∧ 13369 = 999950 * 1337 / 10000 / 10 :=
  ⟨by decide, bribe_formula_exact 1000000 10 10 5 999950 13369 (by decide)⟩

/-- Claim C3 (code bug evidence): both legs are built with an empty calldata
byte string for every input - the payload encoding of pool address,
intervention amount and expected output (the commented-out solidityPack TODO
in the source) is absent. -/
theorem calldata_is_empty (s w nbf n : Nat) :
    (frontrun_transaction_request s w nbf n).data = [] ∧
    (backrun_transaction_request s w nbf n).data = [] := ⟨rfl, rfl⟩

/-- Claim C5: given a successful epoch-clock reading t, the deadline stage
rejects exactly when the decoded deadline is strictly below t, and passes
(returning t) whenever t is at most the deadline - in particular a deadline
equal to the current second passes. -/
theorem deadline_gate_exact (env : CandidateEnv) (decoded : DecodedSwap)
    (t : Nat) (h : env.nowSecsResult = some t) :
    (deadlineStage env decoded = Except.error Outcome.deadlineExpired ↔
      decoded.deadline < t) ∧
    (t ≤ decoded.deadline → deadlineStage env decoded = Except.ok t) := by
  constructor
  · constructor
    · intro he
      by_contra hnot
      simp only [deadlineStage, h] at he
      rw [if_neg hnot] at he
      exact Except.noConfusion he
    · intro hlt
      simp only [deadlineStage, h]
      rw [if_pos hlt]
  · intro hle
    simp only [deadlineStage, h]
    rw [if_neg (by omega)]

/-- Witness for C5: with now = 100, a deadline of exactly 100 passes the
deadline stage. -/
theorem deadline_gate_exact_witness :
    deadlineStage env0 { deadline := 100, amount_out_min := 1, path := [10, 11] }
      = Except.ok 100 :=
  (deadline_gate_exact env0
    { deadline := 100, amount_out_min := 1, path := [10, 11] } 100 rfl).2
    (by decide)

/-- Claim C6 counterexample: the reserve-reordering operation is not
idempotent - with token_a = 1 > token_b = 0 and reserves (5, 7), applying it
twice differs from applying it once (the second application swaps back). -/
theorem reorder_twice_ne_once :
    reorderReserves 1 0 (reorderReserves 1 0 (5, 7)) ≠
      reorderReserves 1 0 (5, 7) := by decide

/-- Claim C6 (amended): applying the reordering to an already-canonical pair
(token_a ≤ token_b) returns it unchanged - and hence twice equals once there -
but in general the operation is an involution: applying it twice returns the
original input, so twice differs from once whenever token_a > token_b and the
two reserves differ. -/
theorem reorder_canonical_fix_involution (token_a token_b : Address)
    (r : Nat × Nat) :
    (token_a ≤ token_b → reorderReserves token_a token_b r = r) ∧
    reorderReserves token_a token_b (reorderReserves token_a token_b r) = r := by
  constructor
  · intro hle
    have hng : ¬ token_a > token_b := not_lt.mpr hle
    unfold reorderReserves
    rw [if_neg hng]
  · by_cases hc : token_a > token_b
    · simp [reorderReserves, hc]
    · simp [reorderReserves, hc]

/-- Witness for C6 (amended): concrete canonical fixpoint and involution. -/
theorem reorder_canonical_fix_involution_witness :
    reorderReserves 0 1 (5, 7) = (5, 7) ∧
    reorderReserves 1 0 (reorderReserves 1 0 (5, 7)) = (5, 7) :=
  ⟨(reorder_canonical_fix_involution 0 1 (5, 7)).1 (by decide),
   (reorder_canonical_fix_involution 1 0 (5, 7)).2⟩

/-- Claim C8 (amended): the gate is monotone in revenue among revenues whose
checked bribe computation succeeds - if the bundle at revenue r passes the
gate and r' ≥ r does not make the checked arithmetic panic, then r' passes
the gate as well. -/
theorem bribe_gate_monotone (r r' fg bg nbf b m b' m' : Nat)
    (h : computeBribe r fg bg nbf = some (b, m)) (hm : nbf ≤ m) (hr : r ≤ r')
    (h' : computeBribe r' fg bg nbf = some (b', m')) : nbf ≤ m' := by
  obtain ⟨_, _, _, _, _, hme⟩ := computeBribe_some_iff r fg bg nbf b m h
  obtain ⟨_, _, _, _, _, hme'⟩ := computeBribe_some_iff r' fg bg nbf b' m' h'
  subst hme hme'
  exact le_trans hm
    (Nat.div_le_div_right (Nat.div_le_div_right
      (Nat.mul_le_mul_right _ (Nat.sub_le_sub_right hr _))))

/-- Claim C8 counterexample: the gate as literally claimed is not monotone
over the full U256 range - revenue 100000 passes (gas 0/1, base fee 1), but
the maximal revenue 2^256 - 1 makes the checked multiplication by 1337
overflow, so the process panics and the bundle does not pass the gate. -/
theorem bribe_gate_monotone_counterexample :
    bribeGatePasses 100000 0 1 1 = true ∧ 100000 ≤ 2 ^ 256 - 1 ∧
    bribeGatePasses (2 ^ 256 - 1) 0 1 1 = false := by decide

/-- Witness for C8 (amended): raising revenue 1000000 to 2000000 keeps the
gate passing. -/
theorem bribe_gate_monotone_witness :
    computeBribe 2000000 10 10 5 = some (1999950, 26739) ∧ (5 : Nat) ≤ 26739 :=
  ⟨by decide,
   bribe_gate_monotone 1000000 2000000 10 10 5 999950 13369 1999950 26739
     (by decide) (by decide) (by decide) (by decide)⟩

/-- Claim C10: the gas-extraction step indexes positions 0 and 2 of the
simulation result with no length check; it is total (panic-free) exactly when
the result holds at least three entries, in which case it returns the
gas_used of entries 0 and 2. -/
theorem gas_extraction_total (txs : List SimulatedTx) :
    ((∃ fg bg, gasStage txs = Except.ok (fg, bg)) ↔ 3 ≤ txs.length) ∧
    (∀ t0 t2, txs.get? 0 = some t0 → txs.get? 2 = some t2 →
      gasStage txs = Except.ok (t0.gas_used, t2.gas_used)) := by
  constructor
  · constructor
    · rintro ⟨fg, bg, h⟩
      obtain ⟨t0, t2, h0, h2, _⟩ := gasStage_ok_shape txs (fg, bg) h
      by_contra hlen
      have hn := List.get?_eq_none.mpr (show txs.length ≤ 2 by omega)
      rw [hn] at h2
      exact Option.noConfusion h2
    · intro hlen
      have h0 := List.get?_eq_get (show 0 < txs.length by omega)
      have h2 := List.get?_eq_get (show 2 < txs.length by omega)
      refine ⟨(txs.get ⟨0, by omega⟩).gas_used, (txs.get ⟨2, by omega⟩).gas_used, ?_⟩
      simp only [gasStage, h0, h2]
  · intro t0 t2 h0 h2
    simp only [gasStage, h0, h2]

/-- Witness for C10: gas extraction on a concrete three-entry simulation. -/
theorem gas_extraction_total_witness :
    gasStage [{ gas_used := 10 }, { gas_used := 999 }, { gas_used := 12 }]
      = Except.ok (10, 12) :=
  (gas_extraction_total
    [{ gas_used := 10 }, { gas_used := 999 }, { gas_used := 12 }]).2
    { gas_used := 10 } { gas_used := 12 } (by decide) (by decide)

/-- Under a sane environment the pre-gate pipeline never fails with a
process-terminating outcome: every failure is a skip. -/
theorem preGate_error_sane (cfg : Config) (env : CandidateEnv) (o : Outcome)
    (hnow : env.nowSecsResult.isSome = true)
    (hwallet : env.walletReloadOk = true)
    (hpath : (match env.decodeResult with
      | some d => decide (2 ≤ d.path.length)
      | none => true) = true)
    (hsim : (match env.simResult with
      | some txs => decide (3 ≤ txs.length)
      | none => true) = true)
    (hbribe : (match env.contextResult, env.nextBaseFeeResult, env.simResult with
      | some revenue, some nbf, some txs =>
        (match txs.get? 0, txs.get? 2 with
         | some t0, some t2 =>
           (computeBribe revenue t0.gas_used t2.gas_used nbf).isSome
         | _, _ => true)
      | _, _, _ => true) = true)
    (h : preGate cfg env = Except.error o) : processTerminates o = false := by
  unfold preGate at h
  repeat' split at h
  all_goals first
    | exact Except.noConfusion h
    | (injection h with h; subst h; rfl)
    | (injection h with h; subst h;
       obtain h1 := deadlineStage_sane _ _ _ hnow (by assumption);
       subst h1; rfl)
    | (injection h with h; subst h; exfalso; simp_all; done)
    | (injection h with h; subst h; exfalso;
       simp_all [List.get?_eq_none]; omega)
    | (injection h with h; subst h; exfalso;
       exact gasStage_sane _ _ (by assumption) (by simp_all))
    | (injection h with h; subst h;
       obtain ⟨h1, h2⟩ := bribeStage_error_none _ _ _ _ _ (by assumption);
       subst h1; exfalso;
       obtain ⟨t0, t2, hg0, hg2, hgp⟩ := gasStage_ok_shape _ _ (by assumption);
       subst hgp; simp_all; done)

/-- Claim C2: send_bundle is called if and only if every pre-gate stage
succeeded and the profitability gate holds (next base fee ≤ computed
priority fee); whenever the computed priority fee is below the next base fee
the candidate ends at the gatekeeper rejection and no submission happens. -/
theorem gate_controls_submission (cfg : Config) (env : CandidateEnv) :
    (sendBundleCalled (processCandidate cfg env) = true ↔
      ∃ g, preGate cfg env = Except.ok g ∧
        g.next_base_fee ≤ g.max_priority_fee_per_gas) ∧
    (∀ g, preGate cfg env = Except.ok g →
      g.max_priority_fee_per_gas < g.next_base_fee →
      processCandidate cfg env =
        Outcome.gateReject g.max_priority_fee_per_gas g.next_base_fee) := by
  cases hp : preGate cfg env with
  | error o =>
    have hpc : processCandidate cfg env = o := by
      unfold processCandidate; rw [hp]
    constructor
    · rw [hpc]
      constructor
      · intro hs
        rw [preGate_error_not_send cfg env o hp] at hs
        exact Bool.noConfusion hs
      · rintro ⟨g, hg, -⟩
        exact Except.noConfusion hg
    · intro g hg
      exact Except.noConfusion hg
  | ok gd =>
    have hpc : processCandidate cfg env =
        if gd.max_priority_fee_per_gas < gd.next_base_fee then
          Outcome.gateReject gd.max_priority_fee_per_gas gd.next_base_fee
        else if env.sendOk then Outcome.submitted gd else Outcome.sendFail gd := by
      unfold processCandidate; rw [hp]
    by_cases hlt : gd.max_priority_fee_per_gas < gd.next_base_fee
    · constructor
      · rw [hpc, if_pos hlt]
        constructor
        · intro hs
          simp [sendBundleCalled] at hs
        · rintro ⟨g, hg, hge⟩
          injection hg with hg
          subst hg
          exfalso
          omega
      · intro g hg hlt2
        injection hg with hg
        subst hg
        rw [hpc, if_pos hlt]
    · constructor
      · rw [hpc, if_neg hlt]
        constructor
        · intro _
          exact ⟨gd, rfl, by omega⟩
        · intro _
          cases hsend : env.sendOk <;> simp [hsend, sendBundleCalled]
      · intro g hg hlt2
        injection hg with hg
        subst hg
        exact absurd hlt2 hlt

/-- Witness for C2: the reference passing environment calls send_bundle. -/
theorem gate_controls_submission_witness :
    sendBundleCalled (processCandidate cfg0 env0) = true :=
  (gate_controls_submission cfg0 env0).1.mpr ⟨g0, by rfl, by decide⟩

/-- Claim C4: every accepted candidate builds its legs from the single
per-candidate nonce read - the front-run leg carries that nonce and the
back-run leg carries it plus one. -/
theorem nonce_sequencing (cfg : Config) (env : CandidateEnv) (g : GateData)
    (h : preGate cfg env = Except.ok g) :
    ∃ n, env.nonceResult = some n ∧ g.front.nonce = n ∧ g.back.nonce = n + 1 ∧
      g.back.nonce = g.front.nonce + 1 := by
  obtain ⟨n, nbf, hn, hnbf, hf, hb⟩ := preGate_ok_shape cfg env g h
  refine ⟨n, hn, ?_, ?_, ?_⟩ <;>
    simp [hf, hb, frontrun_transaction_request, backrun_transaction_request]

/-- Witness for C4: concrete nonce sequencing on the reference run. -/
theorem nonce_sequencing_witness : g0.back.nonce = g0.front.nonce + 1 := by
  obtain ⟨n, hn, hf, hb, hfb⟩ := nonce_sequencing cfg0 env0 g0 (by rfl)
  exact hfb

/-- Claim C7 counterexample: a submitted bundle whose back-run leg encodes
priority fee 0 although the computed validator share is 13369 and the bribe
is nonzero - the computed share is not what the back-run leg carries. -/
theorem backrun_priority_fee_counterexample :
    processCandidate cfg0 env0 = Outcome.submitted g0 ∧
    g0.max_priority_fee_per_gas = 13369 ∧
    g0.bribe_amount ≠ 0 ∧
    g0.back.max_priority_fee_per_gas = 0 ∧
    g0.back.max_priority_fee_per_gas ≠ g0.max_priority_fee_per_gas := by decide

/-- Claim C7 (amended): every submitted bundle's back-run leg (and front-run
leg) carries maxPriorityFeePerGas = 0; the computed validator share is used
only in the gate comparison and is not encoded in any leg. -/
theorem backrun_priority_fee_zero (cfg : Config) (env : CandidateEnv)
    (g : GateData) (h : processCandidate cfg env = Outcome.submitted g) :
    g.back.max_priority_fee_per_gas = 0 ∧
    g.front.max_priority_fee_per_gas = 0 := by
  cases hp : preGate cfg env with
  | error o =>
    have hpc : processCandidate cfg env = o := by
      unfold processCandidate; rw [hp]
    rw [hpc] at h
    subst h
    have hns := preGate_error_not_send cfg env _ hp
    simp [sendBundleCalled] at hns
  | ok gd =>
    have hpc : processCandidate cfg env =
        if gd.max_priority_fee_per_gas < gd.next_base_fee then
          Outcome.gateReject gd.max_priority_fee_per_gas gd.next_base_fee
        else if env.sendOk then Outcome.submitted gd else Outcome.sendFail gd := by
      unfold processCandidate; rw [hp]
    rw [hpc] at h
    obtain ⟨n, nbf, hn, hnbf, hf, hb⟩ := preGate_ok_shape cfg env gd hp
    split at h
    · exact Outcome.noConfusion h
    · split at h
      · injection h with h
        subst h
        rw [hf, hb]
        exact ⟨rfl, rfl⟩
      · exact Outcome.noConfusion h

/-- Witness for C7 (amended): the reference submitted bundle has priority
fee 0 on both legs. -/
theorem backrun_priority_fee_zero_witness :
    g0.back.max_priority_fee_per_gas = 0 ∧
    g0.front.max_priority_fee_per_gas = 0 :=
  backrun_priority_fee_zero cfg0 env0 g0 (by decide)

/-- Claim C9 counterexample: per-candidate computations can terminate the
process - a clock reading before the epoch panics at the deadline stage, and
the bribe subtraction panics (U256 underflow) when the front-run gas cost
exceeds the revenue. -/
theorem per_candidate_termination_counterexample :
    processCandidate cfg0 { env0 with nowSecsResult := none } =
      Outcome.clockPanic ∧
    processTerminates
      (processCandidate cfg0 { env0 with nowSecsResult := none }) = true ∧
    processCandidate cfg0 { env0 with contextResult := some 0 } =
      Outcome.bribePanic ∧
    processTerminates
      (processCandidate cfg0 { env0 with contextResult := some 0 }) = true := by
  decide

/-- Claim C9 (amended): provided the epoch clock is sane, the wallet re-read
succeeds, a decoded path has at least two entries, a simulation result has at
least three entries, and the bribe arithmetic does not panic, no per-candidate
outcome terminates the process - every failure only skips the candidate. -/
theorem sane_env_no_termination (cfg : Config) (env : CandidateEnv)
    (hs : saneEnv env = true) :
    processTerminates (processCandidate cfg env) = false := by
  unfold saneEnv at hs
  simp only [Bool.and_eq_true] at hs
  obtain ⟨⟨⟨⟨hnow, hwallet⟩, hpath⟩, hsim⟩, hbribe⟩ := hs
  cases hp : preGate cfg env with
  | error o =>
    have hpc : processCandidate cfg env = o := by
      unfold processCandidate; rw [hp]
    rw [hpc]
    exact preGate_error_sane cfg env o hnow hwallet hpath hsim hbribe hp
  | ok g =>
    have hpc : processCandidate cfg env =
        if g.max_priority_fee_per_gas < g.next_base_fee then
          Outcome.gateReject g.max_priority_fee_per_gas g.next_base_fee
        else if env.sendOk then Outcome.submitted g else Outcome.sendFail g := by
      unfold processCandidate; rw [hp]
    rw [hpc]
    split
    · rfl
    · split <;> rfl

/-- Witness for C9 (amended): the reference environment is sane and its
outcome is non-terminating. -/
theorem sane_env_no_termination_witness :
    processTerminates (processCandidate cfg0 env0) = false :=
  sane_env_no_termination cfg0 env0 (by decide)
